import Mathlib

/-!
Verification of the task-lifecycle orchestrator in `scriptworker/worker.py`.

The file gives a shallow embedding of `worker.py`: the `RunTasks` class (the
cancellation token), `do_run_task`, `do_upload`, `RunTasks.invoke` and
`run_tasks`.  The asyncio semantics is modelled as explicit state passing:

* the mutable fields of a `RunTasks` instance (`future`, `task_process`,
  `is_cancelled`) become a `RunTasks` state record threaded through the
  functions;
* every `await` of an external collaborator call becomes a *suspension point*;
  the environment `Env` supplies the outcome of each collaborator call and a
  cancellation schedule `cancelAt : Nat → Bool` saying at which suspension
  points the SIGTERM handler invokes `RunTasks.cancel` while the await is
  pending (single-threaded cooperative scheduling: the handler can only run
  while the foreground coroutine is suspended);
* a coroutine registered through `_run_cancellable` raises `CancelledError`
  when `cancel()` fires while it is awaited; a directly-awaited call
  (run_task, upload_artifacts, complete_task) is not registered, so `cancel()`
  firing during it only mutates the token state and signals the registered
  subprocess — the await then completes with its environment-given outcome;
* external collaborator outcomes range over `ExtErr`, which has no
  `CancelledError` constructor: in this program nothing cancels an unregistered
  collaborator coroutine, so a spontaneous `CancelledError` from one is not a
  reachable behaviour;
* observable side effects (starting/cancelling the lease-renewal task,
  signalling the subprocess, calling complete_task, cleanup, ...) are recorded
  in an event trace `List Ev`.
-/

/-- Modelled from the spec: the `STATUSES` table of `scriptworker.constants` is
not under `src/`.  Spec §3 "Exit Status": an integer severity code; §4.1: a
total order with success (0) the unique minimum.  The concrete nonzero codes
below follow the deployment's table; only their being nonzero and distinct
matters for the claims.  Code for the "worker-shutdown" severity tier. -/
def STATUSES_worker_shutdown : Nat := 2

/-- Modelled from the spec (see `STATUSES_worker_shutdown`): code for the
"intermittent/retryable" severity tier. -/
def STATUSES_intermittent_task : Nat := 7

/-- Modelled from the spec: `worst_level` of `scriptworker.task` is not under
`src/`.  Spec §4.1 `combine(a, b)`: "returns the more severe of two exit
statuses under a fixed total order" with success (0) the unique minimum; with
severity increasing in the numeric code this is the maximum. -/
def worst_level (level1 level2 : Nat) : Nat := max level1 level2

/-- The exception classes that flow through `worker.py`.
`cotError` is `CoTError` (a `ScriptWorkerException` subclass) carrying an exit
code and a message; `clientError` is `aiohttp.ClientError`; `cancelledError`
is `asyncio.CancelledError`; `unexpected` stands for any other `Exception`. -/
inductive Exc where
  | scriptWorkerException (exit_code : Nat)
  | cotError (exit_code : Nat) (msg : String)
  | clientError
  | unexpected
  | cancelledError
  deriving DecidableEq, Repr

/-- The `except ScriptWorkerException` clauses match `CoTError` too. -/
def Exc.is_script_worker_exception : Exc → Bool
  | .scriptWorkerException _ => true
  | .cotError _ _ => true
  | _ => false

/-- The `exit_code` attribute of a `ScriptWorkerException`. -/
def Exc.exit_code : Exc → Nat
  | .scriptWorkerException c => c
  | .cotError c _ => c
  | _ => 0

/-- Error outcomes an external collaborator call can produce.  There is no
`cancelledError` constructor: a registered future raises `CancelledError` only
because `cancel()` cancelled it, which the interpreter models directly, and
nothing in this program cancels an unregistered collaborator coroutine. -/
inductive ExtErr where
  | scriptWorkerException (exit_code : Nat)
  | cotError (exit_code : Nat) (msg : String)
  | clientError
  | unexpected
  deriving DecidableEq, Repr

/-- Injection of external errors into the full exception type. -/
def ExtErr.toExc : ExtErr → Exc
  | .scriptWorkerException c => .scriptWorkerException c
  | .cotError c m => .cotError c m
  | .clientError => .clientError
  | .unexpected => .unexpected

/-- Outcome of awaiting one external collaborator call. -/
inductive ExtOutcome (α : Type) where
  | ok (a : α)
  | exn (e : ExtErr)
  deriving DecidableEq, Repr

/-- Observable events of one orchestrator iteration, in program order. -/
inductive Ev where
  | claimScheduled
  | sleepScheduled
  | verifyScheduled
  | futureCancel (fid : Nat)
  | stopSignal (pid : Nat)
  | reclaimStarted (i : Nat)
  | reclaimCancelled (i : Nat)
  | runTaskCalled (i : Nat)
  | generateCotCalled (i : Nat)
  | uploadCalled (i : Nat)
  | completeCalled (i : Nat) (status : Nat)
  | cleanupCalled (i : Nat)
  deriving DecidableEq, Repr

/-- Events owned by the lease-renewal (reclaim) bookkeeping. -/
def Ev.isReclaimEv : Ev → Bool
  | .reclaimStarted _ => true
  | .reclaimCancelled _ => true
  | _ => false

/-- Mutable state of one `RunTasks` instance (worker.py 97-101): the optional
in-flight cancellable future (identified by its suspension-point id), the
optional registered task subprocess (identified by a pid), and the cancelled
flag. -/
structure RunTasks where
  future : Option Nat
  task_process : Option Nat
  is_cancelled : Bool
  deriving DecidableEq, Repr

/-- A fresh `RunTasks()` (worker.py 98-101). -/
def rtInit : RunTasks := { future := none, task_process := none, is_cancelled := false }

/-- `RunTasks.cancel` (worker.py 157-163): set `is_cancelled`, cancel the
registered future if any, and signal the registered subprocess to terminate if
any.  Neither handle is cleared. -/
def RunTasks.cancel (self : RunTasks) : RunTasks × List Ev :=
  let self := { self with is_cancelled := true }
  let futureEvs := match self.future with
    | some fid => [Ev.futureCancel fid]
    | none => []
  let processEvs := match self.task_process with
    | some pid => [Ev.stopSignal pid]
    | none => []
  (self, futureEvs ++ processEvs)

/-- `RunTasks._run_cancellable` (worker.py 129-136).  `schedEv` is the event
recorded when `asyncio.ensure_future(coroutine)` schedules the coroutine;
`fid` identifies the resulting future; `cancelDuring` says whether the SIGTERM
handler runs `cancel()` while this await is pending, in which case the
registered future is cancelled and the await raises `CancelledError`.  On a
normal completion the handle is cleared (line 135); when the coroutine raises,
line 135 is skipped, so the handle stays registered. -/
def RunTasks.run_cancellable {α : Type} (self : RunTasks) (schedEv : Ev) (fid : Nat)
    (cancelDuring : Bool) (out : ExtOutcome α) : RunTasks × List Ev × Except Exc α :=
  if self.is_cancelled then
    (self, [], .error .cancelledError)
  else
    let self := { self with future := some fid }
    if cancelDuring then
      match self.cancel with
      | (s2, cancelEvs) => (s2, schedEv :: cancelEvs, .error .cancelledError)
    else
      match out with
      | .ok a => ({ self with future := none }, [schedEv], .ok a)
      | .exn e => (self, [schedEv], .error e.toExc)

/-- A directly-awaited external call (run_task, upload_artifacts,
complete_task).  It is not registered on the token, so `cancel()` firing while
it is pending only applies `RunTasks.cancel`'s state change and events; the
await then completes with the environment-given outcome. -/
def plain_await {α : Type} (s : RunTasks) (cancelDuring : Bool) (out : ExtOutcome α) :
    RunTasks × List Ev × Except Exc α :=
  let (s, cancelEvs) := if cancelDuring then s.cancel else (s, [])
  match out with
  | .ok a => (s, cancelEvs, .ok a)
  | .exn e => (s, cancelEvs, .error e.toExc)

/-- `RunTasks.to_cancellable_process` (worker.py 149-155): register the task
subprocess; if the token is already cancelled, immediately signal it. -/
def RunTasks.to_cancellable_process (self : RunTasks) (pid : Nat) : RunTasks × List Ev :=
  let self := { self with task_process := some pid }
  if self.is_cancelled then (self, [Ev.stopSignal pid]) else (self, [])

/-- The message of the dedicated abort exception (worker.py 139). -/
def cotAbortMsg : String := "Chain of Trust verification was aborted"

/-- `RunTasks.cancellable_verify_chain_of_trust` (worker.py 138-147): raise the
dedicated worker-shutdown `CoTError` if already cancelled; otherwise run the
verification through `_run_cancellable`, converting a `CancelledError` into
that same dedicated exception.  Other exceptions propagate unchanged. -/
def RunTasks.cancellable_verify_chain_of_trust (self : RunTasks) (fid : Nat)
    (cancelDuring : Bool) (out : ExtOutcome Unit) : RunTasks × List Ev × Except Exc Unit :=
  let exception := Exc.cotError STATUSES_worker_shutdown cotAbortMsg
  if self.is_cancelled then
    (self, [], .error exception)
  else
    match self.run_cancellable Ev.verifyScheduled fid cancelDuring out with
    | (s2, evs, .ok a) => (s2, evs, .ok a)
    | (s2, evs, .error .cancelledError) => (s2, evs, .error exception)
    | (s2, evs, .error e) => (s2, evs, .error e)

/-- Environment of one orchestrator iteration: the outcomes of the external
collaborator calls (indexed, where relevant, by the position of the task in
the claimed batch) and the cancellation schedule.  `cancelAt sp = true` means
the SIGTERM handler invokes `cancel()` while suspension point `sp` is pending.
Suspension points are numbered in program order: 0 is the claim call. -/
structure Env where
  config_verify_cot : Bool
  claimOutcome : ExtOutcome (List Nat)
  verifyOutcome : Nat → ExtOutcome Unit
  runProcess : Nat → Nat
  runOutcome : Nat → ExtOutcome Nat
  cotGenOutcome : Nat → ExtOutcome Unit
  uploadOutcome : Nat → ExtOutcome Unit
  completeOutcome : Nat → ExtOutcome Unit
  cancelAt : Nat → Bool

/-- The `except ScriptWorkerException as e` clause of `do_run_task` (worker.py
57-62): a structured worker failure folds its exit code into the current
status via `worst_level`; any other exception is re-raised. -/
def swe_handler (status : Nat) (e : Exc) : Except Exc Nat :=
  match e with
  | .scriptWorkerException c => .ok (worst_level status c)
  | .cotError c _ => .ok (worst_level status c)
  | e => .error e

/-- The `if context.config['verify_chain_of_trust']` guard of `do_run_task`
(worker.py 52-54): run the cancellable verification, or skip it. -/
def verify_step (env : Env) (i : Nat) (s : RunTasks) (sp : Nat) :
    RunTasks × List Ev × Except Exc Unit :=
  if env.config_verify_cot then
    s.cancellable_verify_chain_of_trust sp (env.cancelAt sp) (env.verifyOutcome i)
  else (s, [], .ok ())

/-- Suspension-point counter after the (possibly skipped) verification. -/
def verify_sp (env : Env) (sp : Nat) : Nat :=
  if env.config_verify_cot then sp + 1 else sp

/-- `do_run_task` (worker.py 35-63).  `status = 0`; in one `try` block: chain
of trust verification (if configured), `run_task` (which registers its
subprocess via `to_cancellable_process`), then the synchronous
`generate_cot`; an `except ScriptWorkerException` clause folds the exception's
exit code into the *current* status via `worst_level`; any other exception is
re-raised.  Returns the updated token state, next suspension-point counter,
events, and the status or the propagated exception. -/
def do_run_task (env : Env) (i : Nat) (s : RunTasks) (sp : Nat) :
    RunTasks × Nat × List Ev × Except Exc Nat :=
  match verify_step env i s sp with
  | (s1, evs1, .error e) => (s1, verify_sp env sp, evs1, swe_handler 0 e)
  | (s1, evs1, .ok _) =>
    let sp1 := verify_sp env sp
    let (s2, evs2) := s1.to_cancellable_process (env.runProcess i)
    match plain_await s2 (env.cancelAt sp1) (env.runOutcome i) with
    | (s3, evs3, .error e) =>
      (s3, sp1 + 1, evs1 ++ Ev.runTaskCalled i :: evs2 ++ evs3, swe_handler 0 e)
    | (s3, evs3, .ok st) =>
      match env.cotGenOutcome i with
      | .ok _ =>
        (s3, sp1 + 1, evs1 ++ Ev.runTaskCalled i :: evs2 ++ evs3 ++ [Ev.generateCotCalled i],
          .ok st)
      | .exn e =>
        (s3, sp1 + 1, evs1 ++ Ev.runTaskCalled i :: evs2 ++ evs3 ++ [Ev.generateCotCalled i],
          swe_handler st e.toExc)

/-- `do_upload` (worker.py 67-94).  `status = 0`; awaits `upload_artifacts`;
`except ScriptWorkerException` folds the exit code in, `except
aiohttp.ClientError` folds in the intermittent-task status, anything else is
re-raised. -/
def do_upload (env : Env) (i : Nat) (s : RunTasks) (sp : Nat) :
    RunTasks × Nat × List Ev × Except Exc Nat :=
  match plain_await s (env.cancelAt sp) (env.uploadOutcome i) with
  | (s1, evs1, .ok _) => (s1, sp + 1, Ev.uploadCalled i :: evs1, .ok 0)
  | (s1, evs1, .error e) =>
    match e with
    | .scriptWorkerException c => (s1, sp + 1, Ev.uploadCalled i :: evs1, .ok (worst_level 0 c))
    | .cotError c _ => (s1, sp + 1, Ev.uploadCalled i :: evs1, .ok (worst_level 0 c))
    | .clientError =>
      (s1, sp + 1, Ev.uploadCalled i :: evs1, .ok (worst_level 0 STATUSES_intermittent_task))
    | e => (s1, sp + 1, Ev.uploadCalled i :: evs1, .error e)

/-- The `for task_defn in tasks.get('tasks', [])` loop of `RunTasks.invoke`
(worker.py 113-124).  Per task: `prepare_to_run_task`, start the lease-renewal
(`reclaim_fut = create_task(...)`), `do_run_task`, `do_upload`, combine the two
statuses with `worst_level`, `complete_task`, `reclaim_fut.cancel()`,
`cleanup`.  `status` is overwritten each round, so the value carried out is
the last round's.  Exceptions abort the loop and propagate. -/
def RunTasks.invokeLoop (env : Env) : List Nat → Nat → Option Nat → RunTasks → Nat →
    RunTasks × Nat × List Ev × Except Exc (Option Nat)
  | [], _i, status, s, sp => (s, sp, [], .ok status)
  | _task_defn :: rest, i, _status, s, sp =>
    match do_run_task env i s sp with
    | (s1, sp1, evs1, .error e) => (s1, sp1, Ev.reclaimStarted i :: evs1, .error e)
    | (s1, sp1, evs1, .ok st1) =>
      match do_upload env i s1 sp1 with
      | (s2, sp2, evs2, .error e) => (s2, sp2, Ev.reclaimStarted i :: evs1 ++ evs2, .error e)
      | (s2, sp2, evs2, .ok st2) =>
        let st := worst_level st1 st2
        match plain_await s2 (env.cancelAt sp2) (env.completeOutcome i) with
        | (s3, evs3, .error e) =>
          (s3, sp2 + 1,
            Ev.reclaimStarted i :: evs1 ++ evs2 ++ Ev.completeCalled i st :: evs3, .error e)
        | (s3, evs3, .ok _) =>
          match RunTasks.invokeLoop env rest (i + 1) (some st) s3 (sp2 + 1) with
          | (s4, sp4, evs4, r) =>
            (s4, sp4,
              Ev.reclaimStarted i :: evs1 ++ evs2 ++ Ev.completeCalled i st :: evs3
                ++ Ev.reclaimCancelled i :: Ev.cleanupCalled i :: evs4, r)

/-- `RunTasks.invoke` (worker.py 103-127): claim work through
`_run_cancellable`; with no tasks, sleep the poll interval (also cancellable)
and return `none`; otherwise run the task loop.  The trailing `except
CancelledError: return None` turns a propagating `CancelledError` into a
normal `none` return. -/
def RunTasks.invoke (env : Env) (s : RunTasks) :
    RunTasks × Nat × List Ev × Except Exc (Option Nat) :=
  let body : RunTasks × Nat × List Ev × Except Exc (Option Nat) :=
    match s.run_cancellable Ev.claimScheduled 0 (env.cancelAt 0) env.claimOutcome with
    | (s1, evs1, .error e) => (s1, 1, evs1, .error e)
    | (s1, evs1, .ok tasks) =>
      match tasks with
      | [] =>
        match s1.run_cancellable Ev.sleepScheduled 1 (env.cancelAt 1) (ExtOutcome.ok ()) with
        | (s2, evs2, .error e) => (s2, 2, evs1 ++ evs2, .error e)
        | (s2, evs2, .ok _) => (s2, 2, evs1 ++ evs2, .ok none)
      | t :: ts =>
        match RunTasks.invokeLoop env (t :: ts) 0 none s1 1 with
        | (s2, sp2, evs2, r) => (s2, sp2, evs1 ++ evs2, r)
  match body with
  | (s1, sp1, evs1, .error .cancelledError) => (s1, sp1, evs1, .ok none)
  | other => other

/-- The fields of the Process Context the orchestrator mutates:
`context.running_tasks` modelled as "an active orchestrator is registered". -/
structure Context where
  running_tasks : Bool
  deriving DecidableEq, Repr

/-- `run_tasks` (worker.py 167-191): create a fresh `RunTasks`, register it on
the context, await `invoke`, then clear the registration and return the
status.  The clearing line runs only when `invoke` returns; a propagating
exception skips it.  `cancelledBeforeInvoke` models the SIGTERM handler firing
in the window after registration and before `invoke`'s first statement (the
only token field it can have changed on a fresh instance is `is_cancelled`). -/
def run_tasks (env : Env) (cancelledBeforeInvoke : Bool) : Context × Except Exc (Option Nat) :=
  let running_tasks : RunTasks :=
    { future := none, task_process := none, is_cancelled := cancelledBeforeInvoke }
  let context : Context := { running_tasks := true }
  match RunTasks.invoke env running_tasks with
  | (_, _, _, .ok status) => ({ context with running_tasks := false }, .ok status)
  | (_, _, _, .error e) => (context, .error e)

/-! ### Concrete environments used to instantiate the claims -/

/-- Baseline environment: trust verification disabled, one claimed task, every
collaborator call succeeds, the task exits 0, no cancellation. -/
def envBase : Env :=
  { config_verify_cot := false
    claimOutcome := .ok [100]
    verifyOutcome := fun _ => .ok ()
    runProcess := fun _ => 0
    runOutcome := fun _ => .ok 0
    cotGenOutcome := fun _ => .ok ()
    uploadOutcome := fun _ => .ok ()
    completeOutcome := fun _ => .ok ()
    cancelAt := fun _ => false }

/-- One claimed task whose execute and upload stages have the given outcomes
(verification disabled, everything else succeeds, no cancellation). -/
def envOneTask (runOut : ExtOutcome Nat) (upOut : ExtOutcome Unit) : Env :=
  { envBase with
    runOutcome := fun _ => runOut
    uploadOutcome := fun _ => upOut }

/-- Two claimed tasks exiting with `st0` and `st1` respectively; uploads and
completions succeed; no cancellation. -/
def envTwoTasks (st0 st1 : Nat) : Env :=
  { envBase with
    claimOutcome := .ok [100, 101]
    runOutcome := fun i => if i = 0 then .ok st0 else .ok st1 }

/-- One task with trust verification enabled; the shutdown handler fires while
the verification (suspension point 1) is pending. -/
def envCancelDuringVerify : Env :=
  { envBase with
    config_verify_cot := true
    cancelAt := fun sp => sp == 1 }

/-- One task where `complete_task` raises a `ScriptWorkerException`. -/
def envCompleteRaises : Env :=
  { envBase with
    completeOutcome := fun _ => .exn (.scriptWorkerException 1) }

/-- One task with trust verification enabled and the verification raising a
structured worker failure with exit code `c`. -/
def envVerifyFails (c : Nat) : Env :=
  { envBase with
    config_verify_cot := true
    verifyOutcome := fun _ => .exn (.scriptWorkerException c) }

/-- The status `do_run_task` reports for an execute-stage outcome that is
either a success or a structured worker failure. -/
def execStatusOf : ExtOutcome Nat → Nat
  | .ok st => st
  | .exn (.scriptWorkerException c) => c
  | .exn (.cotError c _) => c
  | .exn _ => 0

/-- The status `do_upload` reports for an upload-stage outcome that is not an
unrecognized failure. -/
def uploadStatusOf : ExtOutcome Unit → Nat
  | .ok _ => 0
  | .exn (.scriptWorkerException c) => c
  | .exn (.cotError c _) => c
  | .exn .clientError => STATUSES_intermittent_task
  | .exn .unexpected => 0

/-! ### Helper lemmas -/

theorem toExc_ne_cancelled (e : ExtErr) : e.toExc ≠ Exc.cancelledError := by
  cases e <;> simp [ExtErr.toExc]

theorem cancel_events_not_reclaim (s : RunTasks) :
    ∀ e ∈ (RunTasks.cancel s).2, e.isReclaimEv = false := by
  intro e he
  cases e <;> try rfl
  all_goals
    exfalso
    obtain ⟨f, p, c⟩ := s
    cases f <;> cases p <;> simp [RunTasks.cancel] at he

theorem run_cancellable_events_not_reclaim {α : Type} (s : RunTasks) (schedEv : Ev) (fid : Nat)
    (cd : Bool) (out : ExtOutcome α) (hev : schedEv.isReclaimEv = false) :
    ∀ e ∈ (RunTasks.run_cancellable s schedEv fid cd out).2.1, e.isReclaimEv = false := by
  intro e he
  cases e <;> try rfl
  all_goals
    exfalso
    have hcancel := cancel_events_not_reclaim { s with future := some fid }
    cases hc : s.is_cancelled <;> cases cd <;> cases out <;>
      simp [RunTasks.run_cancellable, hc] at he
  all_goals first
    | (subst he; simp [Ev.isReclaimEv] at hev)
    | (rcases he with he | he
       · subst he; simp [Ev.isReclaimEv] at hev
       · exact absurd (hcancel _ he) (by simp [Ev.isReclaimEv]))

theorem plain_await_events_not_reclaim {α : Type} (s : RunTasks) (cd : Bool)
    (out : ExtOutcome α) :
    ∀ e ∈ (plain_await s cd out).2.1, e.isReclaimEv = false := by
  intro e he
  cases e <;> try rfl
  all_goals
    exfalso
    have hcancel := cancel_events_not_reclaim s
    cases cd <;> cases out <;> simp [plain_await] at he
  all_goals have := hcancel _ he; simp [Ev.isReclaimEv] at this

theorem to_cancellable_process_events_not_reclaim (s : RunTasks) (pid : Nat) :
    ∀ e ∈ (RunTasks.to_cancellable_process s pid).2, e.isReclaimEv = false := by
  intro e he
  cases e <;> try rfl
  all_goals
    exfalso
    cases hc : s.is_cancelled <;> simp [RunTasks.to_cancellable_process, hc] at he

theorem cancellable_verify_events_not_reclaim (s : RunTasks) (fid : Nat) (cd : Bool)
    (out : ExtOutcome Unit) :
    ∀ e ∈ (RunTasks.cancellable_verify_chain_of_trust s fid cd out).2.1,
      e.isReclaimEv = false := by
  intro e he
  have hpure := run_cancellable_events_not_reclaim s Ev.verifyScheduled fid cd out rfl
  simp only [RunTasks.cancellable_verify_chain_of_trust] at he
  split at he
  · simp at he
  · rcases hrc : RunTasks.run_cancellable s Ev.verifyScheduled fid cd out with ⟨s2, evs, r⟩
    rw [hrc] at he hpure
    cases r with
    | ok a => exact hpure e he
    | error ex => cases ex <;> simp only at he <;> exact hpure e he

theorem cancellable_verify_result_not_cancelled (s : RunTasks) (fid : Nat) (cd : Bool)
    (out : ExtOutcome Unit) :
    (RunTasks.cancellable_verify_chain_of_trust s fid cd out).2.2 ≠
      Except.error Exc.cancelledError := by
  simp only [RunTasks.cancellable_verify_chain_of_trust]
  split
  · simp
  · rcases hrc : RunTasks.run_cancellable s Ev.verifyScheduled fid cd out with ⟨s2, evs, r⟩
    cases r with
    | ok a => simp
    | error ex => cases ex <;> simp

theorem swe_handler_not_cancelled (status : Nat) (e : Exc) (h : e ≠ Exc.cancelledError) :
    swe_handler status e ≠ Except.error Exc.cancelledError := by
  cases e <;> simp_all [swe_handler]

theorem plain_await_result_not_cancelled {α : Type} (s : RunTasks) (cd : Bool)
    (out : ExtOutcome α) : (plain_await s cd out).2.2 ≠ Except.error Exc.cancelledError := by
  cases cd <;> cases out <;> simp [plain_await] <;> exact toExc_ne_cancelled _

theorem verify_step_events_not_reclaim (env : Env) (i : Nat) (s : RunTasks) (sp : Nat) :
    ∀ e ∈ (verify_step env i s sp).2.1, e.isReclaimEv = false := by
  intro e he
  unfold verify_step at he
  split at he
  · exact cancellable_verify_events_not_reclaim _ _ _ _ e he
  · simp at he

theorem verify_step_result_not_cancelled (env : Env) (i : Nat) (s : RunTasks) (sp : Nat) :
    (verify_step env i s sp).2.2 ≠ Except.error Exc.cancelledError := by
  unfold verify_step
  split
  · exact cancellable_verify_result_not_cancelled _ _ _ _
  · simp

theorem do_run_task_events_not_reclaim (env : Env) (i : Nat) (s : RunTasks) (sp : Nat) :
    ∀ e ∈ (do_run_task env i s sp).2.2.1, e.isReclaimEv = false := by
  intro e he
  unfold do_run_task at he
  rcases hvs : verify_step env i s sp with ⟨s1, evs1, r1⟩
  rw [hvs] at he
  have hv1 := verify_step_events_not_reclaim env i s sp
  rw [hvs] at hv1
  cases r1 with
  | error ex => exact hv1 e he
  | ok a =>
    dsimp only at he
    rcases htc : RunTasks.to_cancellable_process s1 (env.runProcess i) with ⟨s2, evs2⟩
    rw [htc] at he
    have htc1 := to_cancellable_process_events_not_reclaim s1 (env.runProcess i)
    rw [htc] at htc1
    rcases hpa : plain_await s2 (env.cancelAt (verify_sp env sp)) (env.runOutcome i)
      with ⟨s3, evs3, r3⟩
    rw [hpa] at he
    have hpa1 := plain_await_events_not_reclaim s2 (env.cancelAt (verify_sp env sp))
      (env.runOutcome i)
    rw [hpa] at hpa1
    cases r3 with
    | error ex =>
      simp at he
      rcases he with he | he | he | he
      · exact hv1 e he
      · subst he; rfl
      · exact htc1 e he
      · exact hpa1 e he
    | ok st =>
      cases hcg : env.cotGenOutcome i <;> simp [hcg] at he <;>
        rcases he with he | he | he | he | he <;>
        first
          | (subst he; rfl)
          | exact hv1 e he
          | exact htc1 e he
          | exact hpa1 e he

theorem do_run_task_result_not_cancelled (env : Env) (i : Nat) (s : RunTasks) (sp : Nat) :
    (do_run_task env i s sp).2.2.2 ≠ Except.error Exc.cancelledError := by
  unfold do_run_task
  rcases hvs : verify_step env i s sp with ⟨s1, evs1, r1⟩
  have hv := verify_step_result_not_cancelled env i s sp
  rw [hvs] at hv
  cases r1 with
  | error ex =>
    dsimp only
    apply swe_handler_not_cancelled
    intro hx
    exact hv (by rw [hx])
  | ok a =>
    dsimp only
    rcases htc : RunTasks.to_cancellable_process s1 (env.runProcess i) with ⟨s2, evs2⟩
    rcases hpa : plain_await s2 (env.cancelAt (verify_sp env sp)) (env.runOutcome i)
      with ⟨s3, evs3, r3⟩
    have hp := plain_await_result_not_cancelled s2 (env.cancelAt (verify_sp env sp))
      (env.runOutcome i)
    rw [hpa] at hp
    cases r3 with
    | error ex =>
      dsimp only
      apply swe_handler_not_cancelled
      intro hx
      exact hp (by rw [hx])
    | ok st =>
      cases hcg : env.cotGenOutcome i with
      | ok u => simp
      | exn e2 =>
        dsimp only
        exact swe_handler_not_cancelled st e2.toExc (toExc_ne_cancelled e2)

theorem do_upload_events_not_reclaim (env : Env) (i : Nat) (s : RunTasks) (sp : Nat) :
    ∀ e ∈ (do_upload env i s sp).2.2.1, e.isReclaimEv = false := by
  intro e he
  unfold do_upload at he
  rcases hpa : plain_await s (env.cancelAt sp) (env.uploadOutcome i) with ⟨s1, evs1, r1⟩
  rw [hpa] at he
  have hp := plain_await_events_not_reclaim s (env.cancelAt sp) (env.uploadOutcome i)
  rw [hpa] at hp
  cases r1 with
  | ok a =>
    simp only [List.mem_cons] at he
    rcases he with he | he
    · subst he; rfl
    · exact hp e he
  | error ex =>
    cases ex <;> simp only [List.mem_cons] at he <;> rcases he with he | he <;>
      first
        | (subst he; rfl)
        | exact hp e he

theorem do_upload_result_not_cancelled (env : Env) (i : Nat) (s : RunTasks) (sp : Nat) :
    (do_upload env i s sp).2.2.2 ≠ Except.error Exc.cancelledError := by
  unfold do_upload
  rcases hpa : plain_await s (env.cancelAt sp) (env.uploadOutcome i) with ⟨s1, evs1, r1⟩
  have hp := plain_await_result_not_cancelled s (env.cancelAt sp) (env.uploadOutcome i)
  rw [hpa] at hp
  cases r1 with
  | ok a => simp
  | error ex => cases ex <;> simp_all

theorem invokeLoop_result_not_cancelled (env : Env) (tasks : List Nat) :
    ∀ i st s sp, (RunTasks.invokeLoop env tasks i st s sp).2.2.2 ≠
      Except.error Exc.cancelledError := by
  induction tasks with
  | nil => intro i st s sp; simp [RunTasks.invokeLoop]
  | cons t rest ih =>
    intro i st s sp
    unfold RunTasks.invokeLoop
    rcases h1 : do_run_task env i s sp with ⟨s1, sp1, evs1, r1⟩
    have hr1 := do_run_task_result_not_cancelled env i s sp
    rw [h1] at hr1
    cases r1 with
    | error e => dsimp only; simpa using hr1
    | ok st1 =>
      dsimp only
      rcases h2 : do_upload env i s1 sp1 with ⟨s2, sp2, evs2, r2⟩
      have hr2 := do_upload_result_not_cancelled env i s1 sp1
      rw [h2] at hr2
      cases r2 with
      | error e => dsimp only; simpa using hr2
      | ok st2 =>
        dsimp only
        rcases h3 : plain_await s2 (env.cancelAt sp2) (env.completeOutcome i)
          with ⟨s3, evs3, r3⟩
        have hr3 := plain_await_result_not_cancelled s2 (env.cancelAt sp2)
          (env.completeOutcome i)
        rw [h3] at hr3
        cases r3 with
        | error e => dsimp only; simpa using hr3
        | ok u =>
          dsimp only
          rcases h4 : RunTasks.invokeLoop env rest (i + 1) (some (worst_level st1 st2)) s3
            (sp2 + 1) with ⟨s4, sp4, evs4, r4⟩
          have hr4 := ih (i + 1) (some (worst_level st1 st2)) s3 (sp2 + 1)
          rw [h4] at hr4
          dsimp only
          simpa using hr4

theorem invokeLoop_reclaim_closed (env : Env) (tasks : List Nat) :
    ∀ i st s sp r, (RunTasks.invokeLoop env tasks i st s sp).2.2.2 = Except.ok r →
      ∀ j, Ev.reclaimStarted j ∈ (RunTasks.invokeLoop env tasks i st s sp).2.2.1 →
        Ev.reclaimCancelled j ∈ (RunTasks.invokeLoop env tasks i st s sp).2.2.1 := by
  induction tasks with
  | nil => intro i st s sp r _h j hj; simp [RunTasks.invokeLoop] at hj
  | cons t rest ih =>
    intro i st s sp r h j hj
    unfold RunTasks.invokeLoop at h hj ⊢
    rcases h1 : do_run_task env i s sp with ⟨s1, sp1, evs1, r1⟩
    rw [h1] at h hj
    have hp1 := do_run_task_events_not_reclaim env i s sp
    rw [h1] at hp1
    cases r1 with
    | error e => dsimp only at h; exact absurd h (by simp)
    | ok st1 =>
      dsimp only at h hj ⊢
      rcases h2 : do_upload env i s1 sp1 with ⟨s2, sp2, evs2, r2⟩
      rw [h2] at h hj
      have hp2 := do_upload_events_not_reclaim env i s1 sp1
      rw [h2] at hp2
      cases r2 with
      | error e => dsimp only at h; exact absurd h (by simp)
      | ok st2 =>
        dsimp only at h hj ⊢
        rcases h3 : plain_await s2 (env.cancelAt sp2) (env.completeOutcome i)
          with ⟨s3, evs3, r3⟩
        rw [h3] at h hj
        have hp3 := plain_await_events_not_reclaim s2 (env.cancelAt sp2) (env.completeOutcome i)
        rw [h3] at hp3
        cases r3 with
        | error e => dsimp only at h; exact absurd h (by simp)
        | ok u =>
          dsimp only at h hj ⊢
          rcases h4 : RunTasks.invokeLoop env rest (i + 1) (some (worst_level st1 st2)) s3
            (sp2 + 1) with ⟨s4, sp4, evs4, r4⟩
          rw [h4] at h hj
          have hrec := ih (i + 1) (some (worst_level st1 st2)) s3 (sp2 + 1) r
          rw [h4] at hrec
          dsimp only at h hj ⊢
          simp at hj
          rcases hj with hj | hj | hj | hj | hj
          · subst hj; simp
          · exact absurd (hp1 _ hj) (by simp [Ev.isReclaimEv])
          · exact absurd (hp2 _ hj) (by simp [Ev.isReclaimEv])
          · exact absurd (hp3 _ hj) (by simp [Ev.isReclaimEv])
          · have hin := hrec h j hj
            simp [hin]

/-! ### Claim theorems -/

/-- C1: for every execution of one orchestrator iteration that returns (the
exit paths the claim enumerates — success, structured failure, transport
failure, and cancellation of the token mid-iteration — all end in a normal
return of `invoke`), every lease-renewal task started for a claimed task is
cancelled before the iteration returns: a `reclaimStarted` event in the
iteration's trace is always matched by a `reclaimCancelled` event for the same
task in that same trace. -/
theorem claim_C1_lease_renewal_cancelled (env : Env) (s : RunTasks) (r : Option Nat)
    (h : (RunTasks.invoke env s).2.2.2 = Except.ok r) (j : Nat)
    (hst : Ev.reclaimStarted j ∈ (RunTasks.invoke env s).2.2.1) :
    Ev.reclaimCancelled j ∈ (RunTasks.invoke env s).2.2.1 := by
  unfold RunTasks.invoke at h hst ⊢
  have hp1 := run_cancellable_events_not_reclaim s Ev.claimScheduled 0 (env.cancelAt 0)
    env.claimOutcome rfl
  rcases hc : RunTasks.run_cancellable s Ev.claimScheduled 0 (env.cancelAt 0) env.claimOutcome
    with ⟨s1, evs1, r1⟩
  rw [hc] at h hst hp1
  cases r1 with
  | error e =>
    cases e
    case cancelledError =>
      dsimp only at hst ⊢
      exact absurd (hp1 _ hst) (by simp [Ev.isReclaimEv])
    all_goals (dsimp only at h; simp at h)
  | ok tasks =>
    cases tasks with
    | nil =>
      dsimp only at h hst ⊢
      have hp2 := run_cancellable_events_not_reclaim s1 Ev.sleepScheduled 1 (env.cancelAt 1)
        (ExtOutcome.ok ()) rfl
      rcases hsl : RunTasks.run_cancellable s1 Ev.sleepScheduled 1 (env.cancelAt 1)
        (ExtOutcome.ok ()) with ⟨s2, evs2, r2⟩
      rw [hsl] at h hst hp2
      cases r2 with
      | error e =>
        cases e
        case cancelledError =>
          dsimp only at hst ⊢
          simp only [List.mem_append] at hst
          rcases hst with hst | hst
          · exact absurd (hp1 _ hst) (by simp [Ev.isReclaimEv])
          · exact absurd (hp2 _ hst) (by simp [Ev.isReclaimEv])
        all_goals (dsimp only at h; simp at h)
      | ok u =>
        dsimp only at hst
        simp only [List.mem_append] at hst
        rcases hst with hst | hst
        · exact absurd (hp1 _ hst) (by simp [Ev.isReclaimEv])
        · exact absurd (hp2 _ hst) (by simp [Ev.isReclaimEv])
    | cons t ts =>
      dsimp only at h hst ⊢
      have hnc := invokeLoop_result_not_cancelled env (t :: ts) 0 none s1 1
      have hloop := invokeLoop_reclaim_closed env (t :: ts) 0 none s1 1
      rcases hl : RunTasks.invokeLoop env (t :: ts) 0 none s1 1 with ⟨s2, sp2, evs2, r2⟩
      rw [hl] at h hst hnc hloop
      cases r2 with
      | error e =>
        cases e
        case cancelledError => exact (hnc rfl).elim
        all_goals (dsimp only at h; simp at h)
      | ok st =>
        dsimp only at h hst ⊢
        simp only [List.mem_append] at hst ⊢
        rcases hst with hst | hst
        · exact absurd (hp1 _ hst) (by simp [Ev.isReclaimEv])
        · exact Or.inr (hloop st rfl j hst)

/-- C1 witness: in the baseline one-task success run the renewal task is
started and is cancelled before the iteration returns. -/
theorem claim_C1_witness :
    Ev.reclaimCancelled 0 ∈ (RunTasks.invoke envBase rtInit).2.2.1 :=
  claim_C1_lease_renewal_cancelled envBase rtInit (some 0) rfl 0 (by decide)

/-- C2 counterexample: when `complete_task` raises a `ScriptWorkerException`,
`invoke` propagates it, `run_tasks` exits on the failure path, and the Process
Context's active-orchestrator reference is left set — the claim's "cleared on
every exit path: success, failure, and cancellation" fails on this failure
path. -/
theorem claim_C2_counterexample :
    (run_tasks envCompleteRaises false).1.running_tasks = true ∧
      (run_tasks envCompleteRaises false).2 = Except.error (Exc.scriptWorkerException 1) :=
  ⟨rfl, rfl⟩

/-- C2 amended: `context.running_tasks` is set to the new orchestrator before
the iteration and is cleared whenever `run_tasks` returns normally — success,
absorbed failure, and cancellation all end here; but when an unhandled
exception propagates out of `invoke`, the clearing line is skipped and the
reference stays set while the exception unwinds. -/
theorem claim_C2_running_tasks_cleared (env : Env) (cb : Bool) (status : Option Nat)
    (h : (run_tasks env cb).2 = Except.ok status) :
    (run_tasks env cb).1.running_tasks = false := by
  simp only [run_tasks] at h ⊢
  rcases hi : RunTasks.invoke env { future := none, task_process := none, is_cancelled := cb }
    with ⟨s1, sp1, evs1, r1⟩
  rw [hi] at h
  cases r1 with
  | ok st => rfl
  | error e => dsimp only at h; simp at h

/-- C2 witness: in the baseline success run the reference ends cleared. -/
theorem claim_C2_witness : (run_tasks envBase false).1.running_tasks = false :=
  claim_C2_running_tasks_cleared envBase false (some 0) rfl

/-- A token state with a registered subprocess (pid 5). -/
def rtWithProcess : RunTasks := { future := none, task_process := some 5, is_cancelled := false }

/-- C3 counterexample: with a subprocess registered, calling `cancel()` twice
sends the termination signal twice — not exactly once as the claim states —
because `task_process` is never cleared after signalling. -/
theorem claim_C3_counterexample :
    ((RunTasks.cancel rtWithProcess).2
        ++ (RunTasks.cancel (RunTasks.cancel rtWithProcess).1).2).count (Ev.stopSignal 5) = 2 ∧
      ((RunTasks.cancel rtWithProcess).2).count (Ev.stopSignal 5) = 1 := by
  decide

/-- C3 amended: `cancel()` sets the cancelled flag and is idempotent on the
token state (a second call leaves the state unchanged), cancels the in-flight
cancellable handle if one is registered, and signals the registered subprocess
to terminate exactly once *per call* — so two calls signal it twice, not
once. -/
theorem claim_C3_cancel_behaviour (s : RunTasks) :
    (RunTasks.cancel s).1.is_cancelled = true ∧
      (RunTasks.cancel (RunTasks.cancel s).1).1 = (RunTasks.cancel s).1 ∧
      (∀ fid, s.future = some fid → Ev.futureCancel fid ∈ (RunTasks.cancel s).2) ∧
      (∀ pid, s.task_process = some pid →
        (RunTasks.cancel s).2.count (Ev.stopSignal pid) = 1 ∧
          ((RunTasks.cancel (RunTasks.cancel s).1).2).count (Ev.stopSignal pid) = 1) := by
  obtain ⟨f, p, c⟩ := s
  refine ⟨rfl, rfl, ?_, ?_⟩
  · intro fid hf
    cases f <;> simp_all [RunTasks.cancel]
  · intro pid hp
    cases p <;> cases f <;>
      simp_all [RunTasks.cancel, List.count_cons, List.count_append, List.count_nil]

/-- C3 witness: with a future and a subprocess registered, one `cancel()`
cancels that future and signals that subprocess once. -/
theorem claim_C3_witness :
    Ev.futureCancel 1 ∈ (RunTasks.cancel ⟨some 1, some 2, false⟩).2 ∧
      (RunTasks.cancel (⟨some 1, some 2, false⟩ : RunTasks)).2.count (Ev.stopSignal 2) = 1 :=
  ⟨(claim_C3_cancel_behaviour ⟨some 1, some 2, false⟩).2.2.1 1 rfl,
    ((claim_C3_cancel_behaviour ⟨some 1, some 2, false⟩).2.2.2 2 rfl).1⟩

/-- C4: for one executed task, the status reported to the claim queue and
returned by the iteration is the `worst_level` combination of the execute
stage's status and the upload stage's status, for every combination of
recognized stage outcomes — in particular a structured execute failure is
never downgraded by a later successful upload. -/
theorem claim_C4_status_worst_level (runOut : ExtOutcome Nat) (upOut : ExtOutcome Unit)
    (hrun : ∀ e, runOut = ExtOutcome.exn e → e.toExc.is_script_worker_exception = true)
    (hup : ∀ e, upOut = ExtOutcome.exn e → e ≠ ExtErr.unexpected) :
    (RunTasks.invoke (envOneTask runOut upOut) rtInit).2.2.2 =
        Except.ok (some (worst_level (execStatusOf runOut) (uploadStatusOf upOut))) ∧
      Ev.completeCalled 0 (worst_level (execStatusOf runOut) (uploadStatusOf upOut)) ∈
        (RunTasks.invoke (envOneTask runOut upOut) rtInit).2.2.1 := by
  rcases runOut with st | e1 <;> rcases upOut with u | e2
  all_goals try cases e1
  all_goals try cases e2
  all_goals
    first
      | exact absurd rfl (hup ExtErr.unexpected rfl)
      | exact absurd (hrun ExtErr.clientError rfl) (by decide)
      | exact absurd (hrun ExtErr.unexpected rfl) (by decide)
      | simp [RunTasks.invoke, RunTasks.invokeLoop, do_run_task, do_upload, verify_step,
          verify_sp, swe_handler, plain_await, RunTasks.run_cancellable,
          RunTasks.to_cancellable_process, envOneTask, envBase, rtInit, execStatusOf,
          uploadStatusOf, ExtErr.toExc, worst_level, Nat.zero_max, Nat.max_zero]

/-- C4 witness (Scenario C): execution raises a structured failure with exit
code 5 and the upload succeeds; the iteration reports 5, not 0. -/
theorem claim_C4_witness :
    (RunTasks.invoke (envOneTask (ExtOutcome.exn (ExtErr.scriptWorkerException 5))
        (ExtOutcome.ok ())) rtInit).2.2.2 = Except.ok (some 5) :=
  (claim_C4_status_worst_level (ExtOutcome.exn (ExtErr.scriptWorkerException 5))
    (ExtOutcome.ok ())
    (by intro e he; injection he with h; subst h; rfl)
    (by intro e he; simp at he)).1

/-- C5: if the token is already cancelled when trust verification is
requested, or cancellation fires while the verification is in flight, the
cancellable wrapper raises the dedicated `CoTError` "Chain of Trust
verification was aborted" carrying the worker-shutdown severity; it never
lets a generic `CancelledError` escape. -/
theorem claim_C5_verify_abort (s : RunTasks) (fid : Nat) (cd : Bool) (out : ExtOutcome Unit) :
    (s.is_cancelled = true →
      (RunTasks.cancellable_verify_chain_of_trust s fid cd out).2.2 =
        Except.error (Exc.cotError STATUSES_worker_shutdown cotAbortMsg)) ∧
    (cd = true →
      (RunTasks.cancellable_verify_chain_of_trust s fid cd out).2.2 =
        Except.error (Exc.cotError STATUSES_worker_shutdown cotAbortMsg)) ∧
    (RunTasks.cancellable_verify_chain_of_trust s fid cd out).2.2 ≠
      Except.error Exc.cancelledError := by
  refine ⟨?_, ?_, cancellable_verify_result_not_cancelled s fid cd out⟩
  · intro h
    simp [RunTasks.cancellable_verify_chain_of_trust, h]
  · intro h
    subst h
    cases hc : s.is_cancelled <;>
      simp [RunTasks.cancellable_verify_chain_of_trust, RunTasks.run_cancellable,
        RunTasks.cancel, hc]

/-- C5 witness: with the token already cancelled the wrapper reports the
dedicated worker-shutdown abort error. -/
theorem claim_C5_witness :
    (RunTasks.cancellable_verify_chain_of_trust ⟨none, none, true⟩ 0 false
        (ExtOutcome.ok ())).2.2 =
      Except.error (Exc.cotError STATUSES_worker_shutdown cotAbortMsg) :=
  (claim_C5_verify_abort ⟨none, none, true⟩ 0 false (ExtOutcome.ok ())).1 rfl

/-- C6 counterexample: the token is cancelled during trust verification — a
cancellable step run through `_run_cancellable` — yet `invoke` does not return
"no status": it returns the worker-shutdown status, because the wrapper
converts the cancellation into a `CoTError` that `do_run_task` absorbs. -/
theorem claim_C6_counterexample :
    (RunTasks.invoke envCancelDuringVerify rtInit).2.2.2 =
        Except.ok (some STATUSES_worker_shutdown) ∧
      some STATUSES_worker_shutdown ≠ (none : Option Nat) :=
  ⟨rfl, by decide⟩

/-- C6 amended: if the token is cancelled before the iteration begins,
`invoke` returns no status without ever scheduling the claim call; if
cancellation fires during the claim step, `invoke` likewise returns no
status; and when the claim returns no tasks, cancellation firing during the
idle-sleep step (suspension point 1) likewise makes `invoke` return no
status.  But cancellation during the trust-verification step — also a
cancellable step — does not yield "no status": it is converted into a
worker-shutdown CoT failure and the iteration continues (see the
counterexample). -/
theorem claim_C6_cancelled_returns_none :
    (∀ (env : Env) (s : RunTasks), s.is_cancelled = true →
      (RunTasks.invoke env s).2.2.2 = Except.ok none ∧
        Ev.claimScheduled ∉ (RunTasks.invoke env s).2.2.1) ∧
    (∀ env : Env, env.cancelAt 0 = true →
      (RunTasks.invoke env rtInit).2.2.2 = Except.ok none) ∧
    (∀ env : Env, env.claimOutcome = ExtOutcome.ok [] → env.cancelAt 1 = true →
      (RunTasks.invoke env rtInit).2.2.2 = Except.ok none) := by
  refine ⟨?_, ?_, ?_⟩
  · intro env s h
    simp [RunTasks.invoke, RunTasks.run_cancellable, h]
  · intro env h
    simp [RunTasks.invoke, RunTasks.run_cancellable, RunTasks.cancel, rtInit, h]
  · intro env hclaim h1
    cases h0 : env.cancelAt 0 <;>
      simp [RunTasks.invoke, RunTasks.run_cancellable, RunTasks.cancel, rtInit, hclaim, h0, h1]

/-- Environment where the claim returns no tasks and the shutdown handler
fires while the idle-sleep (suspension point 1) is pending. -/
def envCancelDuringSleep : Env :=
  { envBase with claimOutcome := ExtOutcome.ok [], cancelAt := fun sp => sp == 1 }

/-- C6 witness: a pre-cancelled token makes the iteration report no status and
never schedule the claim call; and with an empty claim, cancellation firing
during the idle-sleep step also reports no status. -/
theorem claim_C6_witness :
    ((RunTasks.invoke envBase { rtInit with is_cancelled := true }).2.2.2 = Except.ok none ∧
      Ev.claimScheduled ∉
        (RunTasks.invoke envBase { rtInit with is_cancelled := true }).2.2.1) ∧
    (RunTasks.invoke envCancelDuringSleep rtInit).2.2.2 = Except.ok none :=
  ⟨claim_C6_cancelled_returns_none.1 envBase { rtInit with is_cancelled := true } rfl,
    claim_C6_cancelled_returns_none.2.2 envCancelDuringSleep rfl rfl⟩

/-- C7: `_run_cancellable` fails immediately with a cancelled error — without
scheduling anything — when the token's cancelled flag is already set;
otherwise it registers the operation as the single in-flight cancellable
handle (observable: cancellation during the await cancels exactly the future
`fid` it registered), and on normal completion clears the handle and returns
the operation's result. -/
theorem claim_C7_run_cancellable {α : Type} (s : RunTasks) (schedEv : Ev) (fid : Nat)
    (cd : Bool) (out : ExtOutcome α) :
    (s.is_cancelled = true →
      RunTasks.run_cancellable s schedEv fid cd out =
        (s, [], Except.error Exc.cancelledError)) ∧
    (s.is_cancelled = false → cd = false → ∀ a, out = ExtOutcome.ok a →
      RunTasks.run_cancellable s schedEv fid cd out =
        ({ s with future := none }, [schedEv], Except.ok a)) ∧
    (s.is_cancelled = false → cd = true →
      Ev.futureCancel fid ∈ (RunTasks.run_cancellable s schedEv fid cd out).2.1) := by
  refine ⟨?_, ?_, ?_⟩
  · intro h
    simp [RunTasks.run_cancellable, h]
  · intro h1 h2 a ha
    subst h2
    subst ha
    simp [RunTasks.run_cancellable, h1]
  · intro h1 h2
    subst h2
    simp [RunTasks.run_cancellable, RunTasks.cancel, h1]

/-- C7 witness: on a fresh token a successful operation's result is returned
and the handle ends cleared. -/
theorem claim_C7_witness :
    RunTasks.run_cancellable rtInit Ev.claimScheduled 0 false (ExtOutcome.ok 42) =
      ({ rtInit with future := none }, [Ev.claimScheduled], Except.ok 42) :=
  (claim_C7_run_cancellable rtInit Ev.claimScheduled 0 false
    (ExtOutcome.ok 42)).2.1 rfl rfl 42 rfl

/-- C8: when one claim call returns two task descriptors, they are executed
strictly sequentially within the same iteration (the trace runs all of task
0's stages — run, cot generation, upload, completion, renewal teardown,
cleanup — before any of task 1's), and the iteration returns the
execute/upload-combined status of the *last* task executed: `some st1` for
every `st0`, even when `st0` is more severe. -/
theorem claim_C8_sequential_last_status (st0 st1 : Nat) :
    (RunTasks.invoke (envTwoTasks st0 st1) rtInit).2.2.2 = Except.ok (some st1) ∧
      (RunTasks.invoke (envTwoTasks st0 st1) rtInit).2.2.1 =
        [Ev.claimScheduled,
         Ev.reclaimStarted 0, Ev.runTaskCalled 0, Ev.generateCotCalled 0, Ev.uploadCalled 0,
         Ev.completeCalled 0 st0, Ev.reclaimCancelled 0, Ev.cleanupCalled 0,
         Ev.reclaimStarted 1, Ev.runTaskCalled 1, Ev.generateCotCalled 1, Ev.uploadCalled 1,
         Ev.completeCalled 1 st1, Ev.reclaimCancelled 1, Ev.cleanupCalled 1] := by
  constructor <;>
    simp [RunTasks.invoke, RunTasks.invokeLoop, do_run_task, do_upload, verify_step, verify_sp,
      swe_handler, plain_await, RunTasks.run_cancellable, RunTasks.to_cancellable_process,
      envTwoTasks, envBase, rtInit, worst_level, Nat.max_zero, Nat.zero_max]

/-- C9: a transport-layer error (`aiohttp.ClientError`) raised during artifact
upload is absorbed inside `do_upload` and mapped to the intermittent-task
severity tier: `do_upload` returns that status instead of raising, for every
token state and schedule. -/
theorem claim_C9_upload_transport_error (env : Env) (i : Nat) (s : RunTasks) (sp : Nat)
    (h : env.uploadOutcome i = ExtOutcome.exn ExtErr.clientError) :
    (do_upload env i s sp).2.2.2 = Except.ok STATUSES_intermittent_task := by
  cases hcd : env.cancelAt sp <;>
    simp [do_upload, plain_await, h, hcd, RunTasks.cancel, ExtErr.toExc, worst_level,
      Nat.zero_max]

/-- C9 witness: a client error during upload yields the intermittent-task
status. -/
theorem claim_C9_witness :
    (do_upload { envBase with uploadOutcome := fun _ => ExtOutcome.exn ExtErr.clientError }
        0 rtInit 2).2.2.2 = Except.ok STATUSES_intermittent_task :=
  claim_C9_upload_transport_error
    { envBase with uploadOutcome := fun _ => ExtOutcome.exn ExtErr.clientError } 0 rtInit 2 rfl

/-- C10: when chain-of-trust verification raises a structured worker failure
with exit code `c`, the task's execution and cot-artifact generation are
skipped (no `runTaskCalled`/`generateCotCalled` events), but the iteration
does not abort: it still uploads artifacts, reports completion with `c` folded
into the status, and returns that status. -/
theorem claim_C10_verify_failure_skips_run (c : Nat) :
    (RunTasks.invoke (envVerifyFails c) rtInit).2.2.2 = Except.ok (some c) ∧
      Ev.runTaskCalled 0 ∉ (RunTasks.invoke (envVerifyFails c) rtInit).2.2.1 ∧
      Ev.generateCotCalled 0 ∉ (RunTasks.invoke (envVerifyFails c) rtInit).2.2.1 ∧
      Ev.uploadCalled 0 ∈ (RunTasks.invoke (envVerifyFails c) rtInit).2.2.1 ∧
      Ev.completeCalled 0 c ∈ (RunTasks.invoke (envVerifyFails c) rtInit).2.2.1 := by
  refine ⟨?_, ?_, ?_, ?_, ?_⟩ <;>
    simp [RunTasks.invoke, RunTasks.invokeLoop, do_run_task, do_upload, verify_step, verify_sp,
      swe_handler, plain_await, RunTasks.run_cancellable,
      RunTasks.cancellable_verify_chain_of_trust, RunTasks.to_cancellable_process,
      envVerifyFails, envBase, rtInit, ExtErr.toExc, worst_level, Nat.zero_max, Nat.max_zero]
